import Mathlib

/-!
Shallow embedding of the `gblog` CLI tool (repository onprema/gblog).

The embedding follows the Go sources:
  * `cmd/new.go`      — `PostMeta`, `createPost`, `slugify`
  * `cmd/publish.go`  — `publishPost`, `createNewGist`, `updateExistingGist`,
                        `getGistFiles`, `findPostDir`
  * `cmd/init.go`     — `Config`, `createBlogStructure` (initial config and its
                        on-disk location)
  * `cmd/export.go`   — `exportPosts` (zip entry paths and summary metadata)

Filesystem reads/writes and the external `gh` process are modelled by explicit
parameters: a post directory is a list of directory entries, and the external
CLI's behaviour (auth status, create/edit success, create's stdout) is a
`RemoteEnv` record.  Go strings are Lean `String`s; the Go `strings` package
helpers used by the sources are re-implemented over `String.data` so that every
definition evaluates by kernel reduction.
-/

namespace GBlog

/-! Section: Go `strings` helpers -/

/-- Whitespace class used by Go's `strings.TrimSpace` (`unicode.IsSpace`),
restricted to its ASCII members; the sources only ever trim the stdout of the
external CLI, which is ASCII. -/
def goIsSpace (c : Char) : Bool :=
  c == ' ' || c == '\t' || c == '\n' || c == '\x0b' || c == '\x0c' || c == '\r'

/-- Drop trailing characters satisfying `p` (helper for trimming). -/
def dropTrailing (p : Char → Bool) (l : List Char) : List Char :=
  (l.reverse.dropWhile p).reverse

/-- Go `strings.TrimSpace`. -/
def goTrimSpace (s : String) : String :=
  ⟨dropTrailing goIsSpace (s.data.dropWhile goIsSpace)⟩

/-- Character-list core of Go `strings.Split(s, "/")`: split at every `'/'`,
keeping empty fields.  Like Go's `Split`, the result is never empty — on the
empty string it returns one empty field. -/
def splitSlashChars : List Char → List (List Char)
  | [] => [[]]
  | c :: cs =>
    match splitSlashChars cs with
    | [] => [[]]
    | f :: rest => if c == '/' then [] :: f :: rest else (c :: f) :: rest

/-- Go `strings.Split(s, "/")`. -/
def goSplitSlash (s : String) : List String :=
  (splitSlashChars s.data).map (fun l => ⟨l⟩)

/-- Go `strings.HasPrefix(s, pre)` (byte prefix = character prefix on UTF-8). -/
def goStartsWith (s pre : String) : Bool :=
  pre.data.isPrefixOf s.data

/-- The last `'/'`-separated segment of a string, i.e. `parts[len(parts)-1]`
for `parts := strings.Split(s, "/")`. -/
def lastSlashSegment (s : String) : String :=
  ((goSplitSlash s).getLast?).getD ""

/-! Section: Data model (`cmd/new.go`, `cmd/init.go`) -/

/-- Go `time.Time` restricted to what the sources observe: calendar fields (used
by `Format("2006/01/02")`) plus a seconds-within-day component so that
`Before` distinguishes same-day instants. -/
structure GoTime where
  year : Nat
  month : Nat
  day : Nat
  sec : Nat
deriving DecidableEq, Repr

/-- Comparison `t.Before(u)` — lexicographic on the observed components. -/
def GoTime.before (t u : GoTime) : Bool :=
  if t.year ≠ u.year then t.year < u.year
  else if t.month ≠ u.month then t.month < u.month
  else if t.day ≠ u.day then t.day < u.day
  else t.sec < u.sec

/-- Structure `PostMeta` from `cmd/new.go`.  The Go zero value `""` of `GistID`/`GistURL`
marks "never published" (the JSON tags carry `omitempty`). -/
structure PostMeta where
  id : String
  title : String
  description : String
  public : Bool
  createdAt : GoTime
  gistID : String
  gistURL : String
deriving DecidableEq, Repr

/-- Structure `Config` from `cmd/init.go`.  `NextID` is a Go `int`, modelled as `Nat`
(it is only ever initialised to 1 and incremented). -/
structure Config where
  nextID : Nat
  githubUser : String
  defaultPublic : Bool
  blogPath : String
  repoName : String
deriving DecidableEq, Repr

/-- One result of `os.ReadDir`: an entry name plus its directory flag. -/
structure DirEntry where
  name : String
  isDir : Bool
deriving DecidableEq, Repr

/-! Section: Publish adapter (`cmd/publish.go`) -/

/-- Observable behaviour of the external `gh` CLI for one `publish` run:
whether `gh auth status` succeeds, whether `gh gist create` / `gh gist edit`
succeed, their stderr text on failure, and create's stdout on success. -/
structure RemoteEnv where
  authOk : Bool
  createOk : Bool
  createErr : String
  createOutput : String
  editOk : Bool
  editErr : String
deriving DecidableEq, Repr

/-- Result of one `publishPost` run.  `alreadyPublished` is the early
`return nil` (no metadata write); `published` carries the metadata that is
rewritten to `.meta.json`; `failure` is a non-nil error return (all error
paths return before the metadata file is recreated). -/
inductive PublishOutcome where
  | alreadyPublished (url : String)
  | published (newMeta : PostMeta)
  | failure (msg : String)
deriving DecidableEq, Repr

/-- Function `getGistFiles` from `cmd/publish.go`: the non-directory, non-hidden
entries of the post directory, joined to the directory path. -/
def getGistFiles (postDir : String) (entries : List DirEntry) : List String :=
  (entries.filter (fun e => !e.isDir && !(goStartsWith e.name "."))).map
    (fun e => postDir ++ "/" ++ e.name)

/-- Function `createNewGist` from `cmd/publish.go`.  The `--public`/`--desc` flags only
shape the external command line and are absorbed into `env`.  On success the
trimmed stdout is the gist URL and `parts[len(parts)-1]` of its `/`-split is
the gist id; the `len(parts) == 0` guard is kept as the `getLast? = none`
branch. -/
def createNewGist (postDir : String) (_meta : PostMeta) (entries : List DirEntry)
    (env : RemoteEnv) : Except String (String × String) :=
  let gistFiles := getGistFiles postDir entries
  if gistFiles.isEmpty then
    .error ("no files found to publish in " ++ postDir)
  else if !env.createOk then
    .error ("failed to create gist: " ++ env.createErr)
  else
    let gistURL := goTrimSpace env.createOutput
    let parts := goSplitSlash gistURL
    match parts.getLast? with
    | none => .error ("invalid gist URL returned: " ++ gistURL)
    | some gistID => .ok (gistURL, gistID)

/-- Function `updateExistingGist` from `cmd/publish.go`: re-sends the collected files
with `gh gist edit <meta.GistID>` and returns the existing URL and id
unchanged — the edit's output is never parsed. -/
def updateExistingGist (postDir : String) (meta : PostMeta) (entries : List DirEntry)
    (env : RemoteEnv) : Except String (String × String) :=
  let gistFiles := getGistFiles postDir entries
  if gistFiles.isEmpty then
    .error ("no files found to update in " ++ postDir)
  else if !env.editOk then
    .error ("failed to update gist: " ++ env.editErr)
  else
    .ok (meta.gistURL, meta.gistID)

/-- Function `publishPost` from `cmd/publish.go`, starting after the post directory has
been resolved (`findPostDir`) and its `.meta.json` parsed into `meta`. -/
def publishPost (meta : PostMeta) (update : Bool) (postDir : String)
    (entries : List DirEntry) (env : RemoteEnv) : PublishOutcome :=
  if meta.gistID != "" && !update then
    .alreadyPublished meta.gistURL
  else if !env.authOk then
    .failure "GitHub CLI not authenticated"
  else
    match (if meta.gistID != "" && update then
             updateExistingGist postDir meta entries env
           else
             createNewGist postDir meta entries env) with
    | .error e => .failure e
    | .ok (gistURL, gistID) => .published { meta with gistID := gistID, gistURL := gistURL }

/-- The metadata on disk after a `publishPost` run that started from `meta`:
only the `published` outcome rewrites `.meta.json`. -/
def metaAfter (meta : PostMeta) : PublishOutcome → PostMeta
  | .published m => m
  | _ => meta

/-- Whether the run returned `nil` (the `alreadyPublished` early return and
the `published` path both do). -/
def outcomeSuccess : PublishOutcome → Bool
  | .failure _ => false
  | _ => true

/-- Function `findPostDir` from `cmd/publish.go`: the first directory entry of `posts/`
whose name starts with `postID ++ "-"`. -/
def findPostDir (entries : List DirEntry) (postID : String) : Except String String :=
  match entries.find? (fun e => e.isDir && goStartsWith e.name (postID ++ "-")) with
  | some e => .ok ("posts/" ++ e.name)
  | none => .error ("post with ID " ++ postID ++ " not found")

/-! Section: Basic facts about the helpers -/

theorem splitSlashChars_ne_nil (l : List Char) : splitSlashChars l ≠ [] := by
  cases l with
  | nil => simp [splitSlashChars]
  | cons c cs =>
    simp only [splitSlashChars]
    cases splitSlashChars cs with
    | nil => simp
    | cons f rest =>
      by_cases h : c == '/' <;> simp [h]

theorem goSplitSlash_ne_nil (s : String) : goSplitSlash s ≠ [] := by
  simp [goSplitSlash, splitSlashChars_ne_nil]

theorem getLast?_eq_lastSlashSegment (s : String) :
    (goSplitSlash s).getLast? = some (lastSlashSegment s) := by
  rcases h : (goSplitSlash s).getLast? with _ | seg
  · exact absurd (List.getLast?_eq_none_iff.mp h) (goSplitSlash_ne_nil s)
  · simp [lastSlashSegment, h]

theorem lastSlashSegment_empty : lastSlashSegment "" = "" := rfl

theorem lastSlashSegment_ne_empty {s : String} (h : lastSlashSegment s ≠ "") :
    s ≠ "" := by
  intro he
  subst he
  exact h lastSlashSegment_empty

/-! Section: Concrete sample values used by witnesses and counterexamples -/

/-- A freshly created (never published) post's metadata. -/
def sampleDraftMeta : PostMeta :=
  { id := "0001", title := "Hello", description := "", public := true,
    createdAt := ⟨2024, 1, 2, 0⟩, gistID := "", gistURL := "" }

/-- The directory listing of a post holding one markdown file besides its
hidden `.meta.json`. -/
def sampleEntries : List DirEntry :=
  [⟨".meta.json", false⟩, ⟨"hello.md", false⟩]

/-- A fully cooperative external CLI whose create action prints a gist URL. -/
def sampleEnv : RemoteEnv :=
  { authOk := true, createOk := true, createErr := "",
    createOutput := "https://gist.github.com/onprema/abc123\n",
    editOk := true, editErr := "" }

/-- A cooperative external CLI whose create action prints nothing. -/
def sampleEnvEmptyOutput : RemoteEnv :=
  { sampleEnv with createOutput := "" }

/-- Environment `sampleEnv` with its create stdout replaced by garbage (used to show the
update path ignores it). -/
def sampleEnvGarbageOutput : RemoteEnv :=
  { sampleEnv with createOutput := "garbage" }

/-- Metadata `sampleDraftMeta` after its first successful publish under `sampleEnv`. -/
def samplePublishedMeta : PostMeta :=
  { sampleDraftMeta with
      gistID := lastSlashSegment (goTrimSpace sampleEnv.createOutput),
      gistURL := goTrimSpace sampleEnv.createOutput }

/-- An already-published post's metadata with explicit identifiers. -/
def sampleRemoteMeta : PostMeta :=
  { sampleDraftMeta with
      gistID := "abc123",
      gistURL := "https://gist.github.com/onprema/abc123" }

/-! Section: Claim C1 — first publish sets both identifiers, republish is a no-op -/

/-- C1: a post with no remote identifiers, published without `--update` under
a successful create whose trimmed stdout has a nonempty last `/`-segment, gets
both `gistID` and `gistURL` set; running publish again without `--update` on
the resulting metadata is an `alreadyPublished` no-op (for any directory
contents and any external environment) that reports the recorded URL, leaves
the metadata unchanged, and returns success. -/
theorem publish_create_then_noop
    (meta : PostMeta) (postDir postDir' : String)
    (entries entries' : List DirEntry) (env env' : RemoteEnv)
    (hid : meta.gistID = "")
    (hauth : env.authOk = true) (hcreate : env.createOk = true)
    (hfiles : (getGistFiles postDir entries).isEmpty = false)
    (hseg : lastSlashSegment (goTrimSpace env.createOutput) ≠ "") :
    publishPost meta false postDir entries env =
      .published { meta with gistID := lastSlashSegment (goTrimSpace env.createOutput),
                             gistURL := goTrimSpace env.createOutput }
    ∧ lastSlashSegment (goTrimSpace env.createOutput) ≠ ""
    ∧ goTrimSpace env.createOutput ≠ ""
    ∧ publishPost { meta with gistID := lastSlashSegment (goTrimSpace env.createOutput),
                              gistURL := goTrimSpace env.createOutput }
        false postDir' entries' env' =
      .alreadyPublished (goTrimSpace env.createOutput)
    ∧ metaAfter
        { meta with gistID := lastSlashSegment (goTrimSpace env.createOutput),
                    gistURL := goTrimSpace env.createOutput }
        (publishPost { meta with gistID := lastSlashSegment (goTrimSpace env.createOutput),
                                 gistURL := goTrimSpace env.createOutput }
          false postDir' entries' env') =
      { meta with gistID := lastSlashSegment (goTrimSpace env.createOutput),
                  gistURL := goTrimSpace env.createOutput }
    ∧ outcomeSuccess
        (publishPost { meta with gistID := lastSlashSegment (goTrimSpace env.createOutput),
                                 gistURL := goTrimSpace env.createOutput }
          false postDir' entries' env') = true := by
  have hurl : goTrimSpace env.createOutput ≠ "" := by
    intro he
    rw [he] at hseg
    exact hseg lastSlashSegment_empty
  have h1 : publishPost meta false postDir entries env =
      .published { meta with gistID := lastSlashSegment (goTrimSpace env.createOutput),
                             gistURL := goTrimSpace env.createOutput } := by
    simp only [publishPost, hid, hauth, createNewGist, hfiles, hcreate,
      getLast?_eq_lastSlashSegment]
    rfl
  have h2 : publishPost { meta with gistID := lastSlashSegment (goTrimSpace env.createOutput),
                                    gistURL := goTrimSpace env.createOutput }
      false postDir' entries' env' =
      .alreadyPublished (goTrimSpace env.createOutput) := by
    simp [publishPost, hseg]
  refine ⟨h1, hseg, hurl, h2, ?_, ?_⟩ <;> rw [h2] <;> rfl

/-- C1 witness at concrete inputs. -/
theorem publish_create_then_noop_witness :
    publishPost sampleDraftMeta false "posts/0001-hello" sampleEntries sampleEnv =
      .published samplePublishedMeta
    ∧ lastSlashSegment (goTrimSpace sampleEnv.createOutput) ≠ ""
    ∧ goTrimSpace sampleEnv.createOutput ≠ ""
    ∧ publishPost samplePublishedMeta false "posts/0001-hello" sampleEntries sampleEnv =
      .alreadyPublished (goTrimSpace sampleEnv.createOutput)
    ∧ metaAfter samplePublishedMeta
        (publishPost samplePublishedMeta false "posts/0001-hello" sampleEntries sampleEnv) =
      samplePublishedMeta
    ∧ outcomeSuccess
        (publishPost samplePublishedMeta false "posts/0001-hello" sampleEntries sampleEnv) =
      true :=
  publish_create_then_noop sampleDraftMeta "posts/0001-hello" "posts/0001-hello"
    sampleEntries sampleEntries sampleEnv sampleEnv
    rfl rfl rfl (by decide) (by decide)

/-! Section: Claim C2 — update on a published post preserves both identifiers -/

/-- C2: publish with `--update` on an already-published post rewrites exactly
the metadata it started from — `gistID` and `gistURL` (and every other field)
unchanged — and the outcome is the same for every create-action stdout, since
the update path never parses identifiers from output. -/
theorem publish_update_preserves_identifiers
    (meta : PostMeta) (postDir : String) (entries : List DirEntry)
    (env : RemoteEnv) (out : String)
    (hid : meta.gistID ≠ "")
    (hauth : env.authOk = true) (hedit : env.editOk = true)
    (hfiles : (getGistFiles postDir entries).isEmpty = false) :
    publishPost meta true postDir entries env = .published meta
    ∧ metaAfter meta (publishPost meta true postDir entries env) = meta
    ∧ publishPost meta true postDir entries { env with createOutput := out } =
        publishPost meta true postDir entries env := by
  have h1 : publishPost meta true postDir entries env = .published meta := by
    simp [publishPost, hid, hauth, updateExistingGist, hfiles, hedit]
  have h2 : publishPost meta true postDir entries { env with createOutput := out } =
      .published meta := by
    simp [publishPost, hid, hauth, updateExistingGist, hfiles, hedit]
  exact ⟨h1, by rw [h1]; rfl, by rw [h1, h2]⟩

/-- C2 witness at concrete inputs. -/
theorem publish_update_preserves_identifiers_witness :
    publishPost sampleRemoteMeta true "posts/0001-hello" sampleEntries sampleEnv =
      .published sampleRemoteMeta
    ∧ metaAfter sampleRemoteMeta
        (publishPost sampleRemoteMeta true "posts/0001-hello" sampleEntries sampleEnv) =
      sampleRemoteMeta
    ∧ publishPost sampleRemoteMeta true "posts/0001-hello" sampleEntries
        sampleEnvGarbageOutput =
      publishPost sampleRemoteMeta true "posts/0001-hello" sampleEntries sampleEnv :=
  publish_update_preserves_identifiers sampleRemoteMeta
    "posts/0001-hello" sampleEntries sampleEnv "garbage"
    (by decide) rfl rfl rfl

/-! Section: Claim C8 — `--update` on a never-published post equals plain publish -/

/-- C8: when the metadata has no remote identifier, `publishPost` with
`update = true` is extensionally the same run as with `update = false`: both
fall through to `createNewGist`, for every directory and environment. -/
theorem publish_update_unpublished_eq_create
    (meta : PostMeta) (postDir : String) (entries : List DirEntry)
    (env : RemoteEnv) (hid : meta.gistID = "") :
    publishPost meta true postDir entries env =
      publishPost meta false postDir entries env := by
  simp [publishPost, hid]

/-- C8 witness at concrete inputs. -/
theorem publish_update_unpublished_eq_create_witness :
    publishPost sampleDraftMeta true "posts/0001-hello" sampleEntries sampleEnv =
      publishPost sampleDraftMeta false "posts/0001-hello" sampleEntries sampleEnv :=
  publish_update_unpublished_eq_create sampleDraftMeta "posts/0001-hello"
    sampleEntries sampleEnv rfl

/-! Section: Claim C3 — empty create output is NOT rejected (code bug)

`createNewGist` intends to reject an empty/invalid create output via its
`len(parts) == 0` check, but Go's `strings.Split` never returns an empty
slice (on `""` it returns `[""]`), so the guard is unreachable: an empty
stdout yields a successful publish that records `gistID = ""` and
`gistURL = ""` in the metadata. -/

/-- C3: evaluating `publishPost` on a draft post with a cooperative CLI whose
create action prints nothing: the run succeeds and records empty identifiers
instead of failing with the "invalid gist URL returned" error. -/
theorem publish_empty_output_records_empty_identifiers :
    publishPost sampleDraftMeta false "posts/0001-hello" sampleEntries
        sampleEnvEmptyOutput =
      .published { sampleDraftMeta with gistID := "", gistURL := "" }
    ∧ outcomeSuccess (publishPost sampleDraftMeta false "posts/0001-hello"
        sampleEntries sampleEnvEmptyOutput) = true
    ∧ goSplitSlash "" = [""]
    ∧ (∀ l : List Char, splitSlashChars l ≠ []) := by
  refine ⟨by decide, by decide, by decide, splitSlashChars_ne_nil⟩

/-! Section: Claim C5 — post directory resolution by `"<id>-"` prefix -/

/-- C5: `findPostDir` fails with the not-found error exactly when no
subdirectory entry's name starts with `"<id>-"`; the separator is part of the
match, so id `0001` resolves to `0001-foo` and never to `00011-bar`, and the
first matching entry in listing order wins. -/
theorem findPostDir_prefix_with_separator :
    (∀ (entries : List DirEntry) (postID : String),
        findPostDir entries postID =
          .error ("post with ID " ++ postID ++ " not found")
        ↔ ∀ e ∈ entries, ¬(e.isDir = true ∧
            goStartsWith e.name (postID ++ "-") = true))
    ∧ findPostDir [⟨"0001-foo", true⟩, ⟨"00011-bar", true⟩] "0001" =
        .ok "posts/0001-foo"
    ∧ findPostDir [⟨"00011-bar", true⟩, ⟨"0001-foo", true⟩] "0001" =
        .ok "posts/0001-foo"
    ∧ findPostDir [⟨"00011-bar", true⟩] "0001" =
        .error "post with ID 0001 not found"
    ∧ findPostDir [⟨"0001-foo", true⟩, ⟨"0001-bar", true⟩] "0001" =
        .ok "posts/0001-foo" := by
  refine ⟨?_, rfl, rfl, rfl, rfl⟩
  intro entries postID
  constructor
  · intro h e he
    rcases hf : entries.find? (fun e => e.isDir && goStartsWith e.name (postID ++ "-"))
      with _ | e₀
    · have := List.find?_eq_none.mp hf e he
      simpa using this
    · simp [findPostDir, hf] at h
  · intro h
    have hf : entries.find?
        (fun e => e.isDir && goStartsWith e.name (postID ++ "-")) = none := by
      apply List.find?_eq_none.mpr
      intro e he
      have := h e he
      simpa using this
    simp [findPostDir, hf]

/-- C5 witness: the general characterisation applied at a concrete listing. -/
theorem findPostDir_prefix_with_separator_witness :
    findPostDir [⟨"00011-bar", true⟩] "0001" =
      .error ("post with ID " ++ "0001" ++ " not found") :=
  (findPostDir_prefix_with_separator.1 [⟨"00011-bar", true⟩] "0001").mpr (by decide)

/-! Section: `slugify` (`cmd/new.go`) -/

/-- The character class `[a-z0-9]` of the regexp in `slugify`
(`'a' = 97`, `'z' = 122`, `'0' = 48`, `'9' = 57`). -/
def isSlugChar (c : Char) : Bool :=
  (97 ≤ c.toNat && c.toNat ≤ 122) || (48 ≤ c.toNat && c.toNat ≤ 57)

/-- Go `strings.ToLower` on the ASCII range (`'A' = 65`, `'Z' = 90`).  For a
non-ASCII character Go's Unicode lowering and this identity model agree up to
the subsequent regexp replacement: with rare compatibility-codepoint
exceptions, both the Go image and the unchanged character fall outside
`[a-z0-9]` and are replaced by `'-'`, so the slug's stated properties are
unaffected. -/
def goToLower (c : Char) : Char :=
  if 65 ≤ c.toNat ∧ c.toNat ≤ 90 then Char.ofNat (c.toNat + 32) else c

/-- Go `regexp.MustCompile("[^a-z0-9]+").ReplaceAllString(s, "-")`: every maximal
run of characters outside `[a-z0-9]` becomes a single `'-'`.  `inRun` records
whether the previous character belonged to such a run. -/
def collapseRuns (inRun : Bool) : List Char → List Char
  | [] => []
  | c :: cs =>
    if isSlugChar c then c :: collapseRuns false cs
    else if inRun then collapseRuns true cs
    else '-' :: collapseRuns true cs

/-- Go `strings.Trim(s, "-")`: strip leading and trailing hyphens. -/
def trimHyphens (l : List Char) : List Char :=
  dropTrailing (fun c => c == '-') (l.dropWhile (fun c => c == '-'))

/-- Function `slugify` from `cmd/new.go`: lower-case, collapse non-`[a-z0-9]` runs to
hyphens, trim hyphens, then truncate to 50 bytes (all characters are ASCII at
that point, so bytes = characters). -/
def slugify (s : String) : String :=
  let cs := s.data.map goToLower
  let cs := collapseRuns false cs
  let cs := trimHyphens cs
  ⟨if cs.length > 50 then cs.take 50 else cs⟩

theorem collapseRuns_chars {inRun : Bool} {l : List Char} {c : Char}
    (h : c ∈ collapseRuns inRun l) : isSlugChar c = true ∨ c = '-' := by
  induction l generalizing inRun with
  | nil => simp [collapseRuns] at h
  | cons d ds ih =>
    by_cases hd : isSlugChar d
    · rw [collapseRuns, if_pos hd] at h
      rcases List.mem_cons.mp h with h | h
      · exact Or.inl (h ▸ hd)
      · exact ih h
    · rw [collapseRuns, if_neg hd] at h
      by_cases hr : inRun
      · rw [if_pos hr] at h
        exact ih h
      · rw [if_neg hr] at h
        rcases List.mem_cons.mp h with h | h
        · exact Or.inr h
        · exact ih h

theorem trimHyphens_sublist (l : List Char) : (trimHyphens l).Sublist l := by
  have h1 : (trimHyphens l).Sublist (l.dropWhile (fun c => c == '-')) := by
    have := List.dropWhile_sublist (l := (l.dropWhile (fun c => c == '-')).reverse)
      (p := fun c => c == '-')
    simpa [trimHyphens, dropTrailing] using this.reverse
  exact h1.trans (List.dropWhile_sublist _)

/-- Every character of a slug is in `[a-z0-9]` or is a hyphen. -/
theorem slugify_chars {s : String} {c : Char} (h : c ∈ (slugify s).data) :
    isSlugChar c = true ∨ c = '-' := by
  simp only [slugify] at h
  set cs := trimHyphens (collapseRuns false (s.data.map goToLower)) with hcs
  have hmem : c ∈ cs := by
    by_cases hl : cs.length > 50
    · rw [if_pos hl] at h
      exact List.mem_of_mem_take h
    · rwa [if_neg hl] at h
  exact collapseRuns_chars ((trimHyphens_sublist _).mem hmem)

theorem dropWhile_head?_not {p : Char → Bool} {l : List Char} {c : Char}
    (h : (l.dropWhile p).head? = some c) : p c = false := by
  induction l with
  | nil => simp [List.dropWhile] at h
  | cons d ds ih =>
    rw [List.dropWhile] at h
    cases hd : p d with
    | true =>
      rw [hd] at h
      exact ih h
    | false =>
      rw [hd] at h
      simp at h
      rw [← h]
      exact hd

theorem dropTrailing_getLast?_not {p : Char → Bool} {l : List Char} {c : Char}
    (h : (dropTrailing p l).getLast? = some c) : p c = false := by
  rw [dropTrailing, List.getLast?_reverse] at h
  exact dropWhile_head?_not h

theorem dropTrailing_isPrefix (p : Char → Bool) (l : List Char) :
    ∃ t, dropTrailing p l ++ t = l := by
  refine ⟨(l.reverse.takeWhile p).reverse, ?_⟩
  rw [dropTrailing, ← List.reverse_append, List.takeWhile_append_dropWhile,
    List.reverse_reverse]

theorem trimHyphens_head?_not {l : List Char} {c : Char}
    (h : (trimHyphens l).head? = some c) : (c == '-') = false := by
  rw [trimHyphens] at h
  obtain ⟨t, ht⟩ := dropTrailing_isPrefix (fun c => c == '-')
    (l.dropWhile (fun c => c == '-'))
  cases hcs : dropTrailing (fun c => c == '-')
      (l.dropWhile (fun c => c == '-')) with
  | nil =>
    rw [hcs] at h
    simp at h
  | cons x xs =>
    rw [hcs] at h ht
    simp only [List.head?_cons, Option.some.injEq] at h
    have hx : (List.dropWhile (fun c => c == '-') l).head? = some x := by
      rw [← ht]
      rfl
    exact dropWhile_head?_not (p := fun d => d == '-') (h ▸ hx)

theorem slug_char_goToLower {c : Char} (h : isSlugChar c = true ∨ c = '-') :
    goToLower c = c := by
  rcases h with h | h
  · simp only [isSlugChar, Bool.or_eq_true, Bool.and_eq_true,
      decide_eq_true_eq] at h
    rw [goToLower, if_neg]
    omega
  · subst h
    decide

/-! Section: Claim C4 — slug shape (counterexample: truncation can leave a
trailing hyphen, because `s[:50]` is applied after `strings.Trim`) -/

/-- C4 counterexample: the 51-character title of 49 `'a'`s, a space and a
`'b'` slugifies to 49 `'a'`s followed by a hyphen — the truncation to 50
characters cuts directly after the hyphen that replaced the space, so the
slug ends in `'-'` (at the full length of 50). -/
theorem slugify_trailing_hyphen_counterexample :
    slugify ⟨List.replicate 49 'a' ++ [' ', 'b']⟩ = ⟨List.replicate 49 'a' ++ ['-']⟩
    ∧ (slugify ⟨List.replicate 49 'a' ++ [' ', 'b']⟩).data.getLast? = some '-'
    ∧ (slugify ⟨List.replicate 49 'a' ++ [' ', 'b']⟩).length = 50 := by
  refine ⟨by decide, by decide, by decide⟩

/-- C4 (amended): for every title, the slug contains only `[a-z0-9-]` (hence
is lowercase — `goToLower` fixes every character), has no leading hyphen, and
is at most 50 characters; it also has no trailing hyphen whenever the
hyphen-trimmed form is within the 50-character limit, the truncation of a
longer slug being the one case that may leave a trailing hyphen. -/
theorem slugify_spec (s : String) :
    ((slugify s).data.all fun c => isSlugChar c || c == '-') = true
    ∧ ((slugify s).data.all fun c => goToLower c == c) = true
    ∧ (slugify s).data.head? ≠ some '-'
    ∧ (slugify s).length ≤ 50
    ∧ ((trimHyphens (collapseRuns false (s.data.map goToLower))).length ≤ 50 →
        (slugify s).data.getLast? ≠ some '-') := by
  refine ⟨?_, ?_, ?_, ?_, ?_⟩
  · rw [List.all_eq_true]
    intro c hc
    rcases slugify_chars hc with h | h <;> simp [h]
  · rw [List.all_eq_true]
    intro c hc
    simp [slug_char_goToLower (slugify_chars hc)]
  · intro h
    have hhead : (trimHyphens (collapseRuns false (s.data.map goToLower))).head? =
        some '-' := by
      simp only [slugify] at h
      generalize hg : trimHyphens (collapseRuns false (s.data.map goToLower)) = cs at h ⊢
      by_cases hl : cs.length > 50
      · rw [if_pos hl] at h
        cases cs with
        | nil => simp at h
        | cons x xs =>
          have h50 : (50 : Nat) = 49 + 1 := rfl
          rw [h50, List.take_succ_cons] at h
          simpa using h
      · rwa [if_neg hl] at h
    have := trimHyphens_head?_not hhead
    simp at this
  · show (slugify s).data.length ≤ 50
    simp only [slugify]
    by_cases hl : (trimHyphens (collapseRuns false (s.data.map goToLower))).length > 50
    · rw [if_pos hl]
      simp [List.length_take]
    · rw [if_neg hl]
      omega
  · intro hle h
    have hlast : (trimHyphens (collapseRuns false (s.data.map goToLower))).getLast? =
        some '-' := by
      simp only [slugify] at h
      rwa [if_neg (by omega)] at h
    rw [trimHyphens] at hlast
    have := dropTrailing_getLast?_not hlast
    simp at this

/-- C4 witness: the amended properties evaluated on the title
`"Hello, World!"`, whose untruncated slug `"hello-world"` is short enough
that the no-trailing-hyphen conclusion applies. -/
theorem slugify_spec_witness :
    ((slugify "Hello, World!").data.all fun c => isSlugChar c || c == '-') = true
    ∧ (slugify "Hello, World!").length ≤ 50
    ∧ (slugify "Hello, World!").data.getLast? ≠ some '-' :=
  ⟨(slugify_spec "Hello, World!").1, (slugify_spec "Hello, World!").2.2.2.1,
    (slugify_spec "Hello, World!").2.2.2.2 (by decide)⟩

/-! Section: `createPost` (`cmd/new.go`) -/

/-- Go `fmt.Sprintf("%04d", n)` for the non-negative ids in use: decimal,
zero-padded on the left to at least 4 digits. -/
def padZero4 (n : Nat) : String :=
  let s := toString n
  if s.length < 4 then (⟨List.replicate (4 - s.length) '0'⟩ : String) ++ s else s

/-- Everything `createPost` writes, for a given loaded config and the three
wizard inputs (title, description, visibility) plus the creation instant:
the new post's id and directory, its `.meta.json` content, the markdown
file's name and content, the config written back, and the `.gitignore`
line appended for a private post. -/
structure CreatedPost where
  postID : String
  slug : String
  dirName : String
  meta : PostMeta
  mdFilename : String
  mdContent : String
  newConfig : Config
  gitignoreAppend : Option String
deriving DecidableEq, Repr

/-- Function `createPost` from `cmd/new.go`. -/
def createPost (config : Config) (title description : String) (isPublic : Bool)
    (now : GoTime) : CreatedPost :=
  let postID := padZero4 config.nextID
  let slug := slugify title
  let dirName := postID ++ "-" ++ slug
  { postID := postID
    slug := slug
    dirName := dirName
    meta := { id := postID, title := title, description := description,
              public := isPublic, createdAt := now, gistID := "", gistURL := "" }
    mdFilename := slug ++ ".md"
    mdContent := "# " ++ title ++ "\n\n" ++
      (if description ≠ "" then "*" ++ description ++ "*\n\n" else "") ++
      "Write your post content here...\n"
    newConfig := { config with nextID := config.nextID + 1 }
    gitignoreAppend :=
      if !isPublic then some ("posts/" ++ dirName ++ "/\n") else none }

/-- The directory listing of a freshly created, unmodified post: the hidden
metadata file and the markdown file. -/
def createdEntries (r : CreatedPost) : List DirEntry :=
  [⟨".meta.json", false⟩, ⟨r.mdFilename, false⟩]

/-- The post ids issued by running `createPost` once per wizard input,
threading the written-back config. -/
def createdIds : Config → List (String × String × Bool × GoTime) → List String
  | _, [] => []
  | c, (t, d, p, now) :: rest =>
    let r := createPost c t d p now
    r.postID :: createdIds r.newConfig rest

theorem createdIds_eq (inputs : List (String × String × Bool × GoTime)) :
    ∀ c : Config, createdIds c inputs =
      (List.range inputs.length).map (fun k => padZero4 (c.nextID + k)) := by
  induction inputs with
  | nil => intro c; rfl
  | cons hd rest ih =>
    intro c
    obtain ⟨t, d, p, n⟩ := hd
    show padZero4 c.nextID :: createdIds { c with nextID := c.nextID + 1 } rest = _
    rw [ih]
    simp only [List.length_cons, List.range_succ_eq_map, List.map_cons,
      List.map_map, Nat.add_zero, List.cons.injEq]
    refine ⟨trivial, ?_⟩
    apply List.map_congr_left
    intro k _
    show padZero4 (c.nextID + 1 + k) = padZero4 (c.nextID + (k + 1))
    congr 1
    omega

/-! Section: Claim C6 — sequential zero-padded post ids -/

/-- C6: each post creation renders `nextId` zero-padded to 4 digits as the
new id and writes back the config with `nextId` incremented exactly once (all
other fields untouched); hence the run of creations starting from
`nextId = 1` issues `padZero4 1, padZero4 2, …` — concretely `"0001"`,
`"0002"`, `"0003"`, … . -/
theorem createPost_sequential_ids (c : Config) (t d : String) (p : Bool)
    (now : GoTime) (inputs : List (String × String × Bool × GoTime))
    (h : c.nextID = 1) :
    (createPost c t d p now).postID = padZero4 c.nextID
    ∧ (createPost c t d p now).newConfig = { c with nextID := c.nextID + 1 }
    ∧ createdIds c inputs =
        (List.range inputs.length).map (fun k => padZero4 (k + 1))
    ∧ padZero4 1 = "0001" ∧ padZero4 2 = "0002" ∧ padZero4 3 = "0003" := by
  refine ⟨rfl, rfl, ?_, by decide, by decide, by decide⟩
  rw [createdIds_eq, h]
  apply List.map_congr_left
  intro k _
  show padZero4 (1 + k) = padZero4 (k + 1)
  congr 1
  omega

/-- C6 witness: three creations from a fresh config issue `0001`, `0002`,
`0003`. -/
theorem createPost_sequential_ids_witness :
    createdIds ⟨1, "", true, ".", "blog"⟩
        [("A", "", true, ⟨2024, 1, 1, 0⟩), ("B", "", true, ⟨2024, 1, 2, 0⟩),
         ("C", "", false, ⟨2024, 1, 3, 0⟩)] =
      (List.range 3).map (fun k => padZero4 (k + 1)) :=
  (createPost_sequential_ids ⟨1, "", true, ".", "blog"⟩ "A" "" true ⟨2024, 1, 1, 0⟩
    [("A", "", true, ⟨2024, 1, 1, 0⟩), ("B", "", true, ⟨2024, 1, 2, 0⟩),
     ("C", "", false, ⟨2024, 1, 3, 0⟩)] rfl).2.2.1

/-! Section: Claim C10 — a fresh post's content file and the no-files branch
(counterexample: a title with no alphanumeric character slugifies to `""`,
so the markdown file is the hidden `".md"` and publish hits the
no-files-to-publish error) -/

/-- An initialized blog's config (`nextId = 1`), as `createBlogStructure`
writes it for blog name `"blog"`. -/
def sampleConfig : Config := ⟨1, "", true, ".", "blog"⟩

/-- C10 counterexample: creating a post titled `"!!!"` from a fresh config
yields directory `0001-` whose only content file is the hidden `".md"`;
publishing it immediately — with a fully cooperative external CLI — collects
no files and fails with the no-files-to-publish error. -/
theorem created_post_empty_slug_no_files :
    (createPost sampleConfig "!!!" "" true ⟨2024, 1, 2, 0⟩).mdFilename = ".md"
    ∧ (createPost sampleConfig "!!!" "" true ⟨2024, 1, 2, 0⟩).dirName = "0001-"
    ∧ getGistFiles "posts/0001-"
        (createdEntries (createPost sampleConfig "!!!" "" true ⟨2024, 1, 2, 0⟩)) = []
    ∧ publishPost (createPost sampleConfig "!!!" "" true ⟨2024, 1, 2, 0⟩).meta false
        "posts/0001-"
        (createdEntries (createPost sampleConfig "!!!" "" true ⟨2024, 1, 2, 0⟩))
        sampleEnv =
      .failure "no files found to publish in posts/0001-" := by
  refine ⟨by decide, by decide, by decide, by decide⟩

/-- C10 (amended): whenever the title's slug is nonempty (i.e. the title has
at least one character that lowers into `[a-z0-9]`), the created post's
markdown file `<slug>.md` is not hidden, `getGistFiles` on the fresh
directory collects exactly that file, and in particular the collected list is
nonempty — the `no files found to publish` branch cannot be reached for such
a fresh post. -/
theorem created_post_has_visible_md (c : Config) (title d : String) (p : Bool)
    (now : GoTime) (postDir : String) (h : slugify title ≠ "") :
    goStartsWith (createPost c title d p now).mdFilename "." = false
    ∧ getGistFiles postDir (createdEntries (createPost c title d p now)) =
        [postDir ++ "/" ++ (createPost c title d p now).mdFilename]
    ∧ (getGistFiles postDir
        (createdEntries (createPost c title d p now))).isEmpty = false := by
  have hdata : (slugify title).data ≠ [] := by
    intro hd
    exact h (String.ext hd)
  have hmd : goStartsWith (createPost c title d p now).mdFilename "." = false := by
    show goStartsWith (slugify title ++ ".md") "." = false
    rw [goStartsWith, String.data_append]
    cases hsd : (slugify title).data with
    | nil => exact absurd hsd hdata
    | cons x xs =>
      have hx : x ∈ (slugify title).data := by
        rw [hsd]
        exact List.mem_cons_self x xs
      have hchar := slugify_chars hx
      have hxne : ('.' == x) = false := by
        rcases hchar with hc | hc
        · simp only [beq_eq_false_iff_ne, ne_eq]
          intro he
          rw [← he] at hc
          exact absurd hc (by decide)
        · rw [hc]
          decide
      show (".".data.isPrefixOf (x :: xs ++ ".md".data)) = false
      simp only [List.cons_append]
      show (('.' == x) && ([].isPrefixOf (xs ++ ".md".data))) = false
      rw [hxne]
      rfl
  refine ⟨hmd, ?_, ?_⟩
  · simp only [getGistFiles, createdEntries, List.filter]
    rw [hmd]
    rfl
  · simp only [getGistFiles, createdEntries, List.filter]
    rw [hmd]
    rfl

/-- C10 witness: the amended statement at title `"Hi"`. -/
theorem created_post_has_visible_md_witness :
    goStartsWith (createPost sampleConfig "Hi" "" true ⟨2024, 1, 2, 0⟩).mdFilename
        "." = false
    ∧ getGistFiles "posts/0001-hi"
        (createdEntries (createPost sampleConfig "Hi" "" true ⟨2024, 1, 2, 0⟩)) =
      ["posts/0001-hi" ++ "/" ++
        (createPost sampleConfig "Hi" "" true ⟨2024, 1, 2, 0⟩).mdFilename]
    ∧ (getGistFiles "posts/0001-hi"
        (createdEntries (createPost sampleConfig "Hi" "" true
          ⟨2024, 1, 2, 0⟩))).isEmpty = false :=
  created_post_has_visible_md sampleConfig "Hi" "" true ⟨2024, 1, 2, 0⟩
    "posts/0001-hi" (by decide)

/-! Section: `exportPosts` (`cmd/export.go`) -/

/-- Structure `PostInfo` from `cmd/list.go` (also used by export), extended with the
result of `filepath.Walk` over the post directory: the relative paths, in
walk order, of every file below it (including hidden ones). -/
structure PostInfo where
  meta : PostMeta
  dir : String
  files : List String
deriving DecidableEq, Repr

/-- Go time layout `"01"`/`"02"`: two-digit zero-padded month/day. -/
def pad2 (n : Nat) : String :=
  let s := toString n
  if s.length < 2 then "0" ++ s else s

/-- Go `t.Format("2006/01/02")`. -/
def fmtDate (t : GoTime) : String :=
  padZero4 t.year ++ "/" ++ pad2 t.month ++ "/" ++ pad2 t.day

/-- The posts ordered by creation date, as `sort.Slice` with
`posts[i].Meta.CreatedAt.Before(posts[j].Meta.CreatedAt)`.  `sort.Slice` is
an unstable sort; insertion sort realises one admissible result, and the
properties proved below depend only on the multiset of entries. -/
def sortPosts (posts : List PostInfo) : List PostInfo :=
  List.insertionSort
    (fun a b => GoTime.before a.meta.createdAt b.meta.createdAt = true) posts

/-- The zip path of one file of a post:
`filepath.Join("posts", createdDate, post.Dir, relPath)` with forward
slashes. -/
def entryPath (p : PostInfo) (rel : String) : String :=
  "posts/" ++ fmtDate p.meta.createdAt ++ "/" ++ p.dir ++ "/" ++ rel

/-- The zip entries `exportPosts` writes for one post. -/
def postEntries (p : PostInfo) : List String :=
  p.files.map (entryPath p)

/-- All zip entry paths written by `exportPosts`: per-post file entries in
sorted post order, then the `export-metadata.json` summary entry. -/
def exportEntries (posts : List PostInfo) : List String :=
  ((sortPosts posts).flatMap postEntries) ++ ["export-metadata.json"]

/-- One element of the `posts` array inside `export-metadata.json`. -/
structure SummaryEntry where
  id : String
  title : String
  public : Bool
  createdAt : GoTime
  gistURL : String
deriving DecidableEq, Repr

/-- The summary element `exportPosts` records for one post. -/
def summaryOf (p : PostInfo) : SummaryEntry :=
  ⟨p.meta.id, p.meta.title, p.meta.public, p.meta.createdAt, p.meta.gistURL⟩

/-- The `posts` array of `export-metadata.json`. -/
def exportSummary (posts : List PostInfo) : List SummaryEntry :=
  (sortPosts posts).map summaryOf

/-! Section: Claim C7 — export archive layout (counterexample: every file entry
is rooted at `posts/`, not at the creation date) -/

/-- C7 counterexample: exporting one post created 2024-01-02 produces the
file entry `posts/2024/01/02/0001-hello/hello.md` — the path does not start
with the creation date `2024/01/02` as the claim's `YYYY/MM/DD/<dir>/...`
form requires; the date prefix sits under a leading `posts/` component. -/
theorem export_paths_not_date_rooted :
    exportEntries [⟨sampleDraftMeta, "0001-hello", ["hello.md"]⟩] =
      ["posts/2024/01/02/0001-hello/hello.md", "export-metadata.json"]
    ∧ goStartsWith "posts/2024/01/02/0001-hello/hello.md"
        (fmtDate sampleDraftMeta.createdAt) = false
    ∧ goStartsWith "posts/2024/01/02/0001-hello/hello.md" "posts/" = true := by
  refine ⟨by decide, by decide, by decide⟩

/-- C7 (amended): the archive holds, up to the order induced by sorting
posts by creation date, exactly one entry per file of every post, at path
`posts/YYYY/MM/DD/<dir>/<relative path>`, plus the single
`export-metadata.json` entry, whose posts array records every post's id,
title, visibility, creation time and gist URL. -/
theorem exportEntries_spec (posts : List PostInfo) :
    (exportEntries posts).Perm
      ((posts.flatMap fun p => p.files.map (entryPath p)) ++
        ["export-metadata.json"])
    ∧ (exportSummary posts).Perm (posts.map summaryOf)
    ∧ (∀ p rel, entryPath p rel =
        "posts/" ++ fmtDate p.meta.createdAt ++ "/" ++ p.dir ++ "/" ++ rel)
    ∧ (∀ p, summaryOf p =
        ⟨p.meta.id, p.meta.title, p.meta.public, p.meta.createdAt,
          p.meta.gistURL⟩) := by
  refine ⟨?_, ?_, fun p rel => rfl, fun p => rfl⟩
  · exact List.Perm.append_right _
      ((List.perm_insertionSort _ posts).flatMap_right postEntries)
  · exact (List.perm_insertionSort _ posts).map summaryOf

/-! Section: Claims about `createBlogStructure` (`cmd/init.go`) -/

/-- Path `filepath.Join(".gblog", "config.json")` — where `createBlogStructure`
writes the config (and where `createPost` and the other commands read it). -/
def configJSONPath : String := ".gblog" ++ "/" ++ "config.json"

/-- The `Config` value `createBlogStructure` writes for a new blog. -/
def initialBlogConfig (blogName : String) : Config :=
  { nextID := 1, githubUser := "", defaultPublic := true,
    blogPath := ".", repoName := blogName }

/-- The JSON keys `encoding/json` serialises for a `Config`, in struct field
order; `github_user` carries `omitempty` and is dropped when empty, the
other four fields are always present. -/
def configJSONKeys (c : Config) : List String :=
  ["next_id"] ++ (if c.githubUser == "" then [] else ["github_user"]) ++
    ["default_public", "blog_path", "repo_name"]

/-- A config whose optional `github_user` field is set. -/
def sampleUserConfig : Config := ⟨1, "onprema", true, ".", "blog"⟩

/-! Section: Claim C9 — config document location and fields (counterexample: the
file lives under `.gblog/`, not `.toolstate/`, and always carries the two
extra fields `blog_path` and `repo_name`) -/

/-- C9 counterexample: the config path is `.gblog/config.json`, and the
serialised document of a fresh blog has keys
`next_id, default_public, blog_path, repo_name` — `blog_path` is not among
the claim's exact field list `next_id, github_user?, default_public`. -/
theorem config_layout_counterexample :
    configJSONPath = ".gblog/config.json"
    ∧ configJSONPath ≠ ".toolstate/config.json"
    ∧ configJSONKeys (initialBlogConfig "blog") =
        ["next_id", "default_public", "blog_path", "repo_name"]
    ∧ "blog_path" ∈ configJSONKeys (initialBlogConfig "blog")
    ∧ "blog_path" ∉ (["next_id", "github_user", "default_public"] : List String) := by
  refine ⟨by decide, by decide, by decide, by decide, by decide⟩

/-- C9 (amended): the configuration document lives at
`<blog-root>/.gblog/config.json` and serialises the fields `next_id`,
optional `github_user`, `default_public`, `blog_path` and `repo_name`, in
that order; a fresh blog starts from `next_id = 1`, `default_public = true`,
`blog_path = "."` and `repo_name` set to the blog name. -/
theorem config_layout_spec (blogName : String) (c : Config)
    (h : c.githubUser ≠ "") :
    configJSONPath = ".gblog/config.json"
    ∧ initialBlogConfig blogName =
        ⟨1, "", true, ".", blogName⟩
    ∧ configJSONKeys (initialBlogConfig blogName) =
        ["next_id", "default_public", "blog_path", "repo_name"]
    ∧ configJSONKeys c =
        ["next_id", "github_user", "default_public", "blog_path", "repo_name"] := by
  refine ⟨rfl, rfl, rfl, ?_⟩
  simp [configJSONKeys, h]

/-- C9 witness: the field list with `github_user` present. -/
theorem config_layout_spec_witness :
    configJSONKeys sampleUserConfig =
      ["next_id", "github_user", "default_public", "blog_path", "repo_name"] :=
  (config_layout_spec "blog" sampleUserConfig (by decide)).2.2.2

end GBlog
